import Mathlib

/-!
Shallow embedding of `apspace.py` (class `APSpace`): the session/ticket client,
the OTP attendance submitter, the semester resolver and the attendance-percentage
aggregation.  Python exceptions are modelled as an explicit error type, Python
`None` returns as `Option.none` inside `Except.ok`, JSON numbers as rationals,
and the remote service as an explicit environment value passed to each function.
`async`/`await` is modelled explicitly where it matters: calling `.json()` on an
aiohttp response returns a *coroutine object*, and only `await` turns it into the
parsed body; subscripting a coroutine object raises `TypeError` at run time.
-/

/-- Python exceptions that the code under study can raise.  `dataShapeError` is
the error type named by the specification; the code itself never constructs it. -/
inductive ApErr where
  | otpError (message : String)
  | credentialsInvalid (message : String)
  | httpUnauthorized
  | zeroDivisionError
  | typeError
  | valueError
  | indexError
  | unboundLocal (name : String)
  | dataShapeError
deriving DecidableEq

/-- An awaitable coroutine object, as produced by calling an `async def` method
(such as `ClientResponse.json()`) without `await`.  The wrapped value is what an
`await` would have produced. -/
inductive Awaitable (α : Type) where
  | coro (val : α)

/-- Subscripting a coroutine object (`resp.json()['k']`, `resp.json()[-2]`, …):
in Python this raises `TypeError: 'coroutine' object is not subscriptable`,
whatever the eventual value would have been. -/
def coroSubscript {α β : Type} (_ : Awaitable α) : Except ApErr β :=
  .error .typeError

/-- An HTTP response as seen by the client: a status code and a parsed body. -/
structure HttpResponse (α : Type) where
  status : Nat
  body : α

/- ### OTP attendance submission (`take_attendance` / `sign_otp`) -/

/-- The `data.updateAttendance` object of the attendix GraphQL response. -/
structure OtpData where
  attendance : String
  classcode : String
deriving DecidableEq

/-- One entry of the `errors` array of the GraphQL response. -/
structure OtpRespError where
  message : String
deriving DecidableEq

/-- Body of the attendix GraphQL response: `data` is the `updateAttendance`
object or JSON null / absent (`none`), plus the `errors` array. -/
structure OtpResponse where
  data : Option OtpData
  errors : List OtpRespError
deriving DecidableEq

/-- World state threaded through the OTP submitter: the response the attendix
endpoint will give, the service ticket text the CAS endpoint returns, a count of
network requests issued (`session.post` calls), and the list of OTP strings
actually placed in an outgoing GraphQL payload. -/
structure OtpWorld where
  response : HttpResponse OtpResponse
  serviceTicket : String
  posts : Nat
  transmitted : List String

/-- `get_service_auth`: POSTs to the CAS ticket URL and returns the response
text as the service ticket.  One network call. -/
def get_service_auth (w : OtpWorld) : String × OtpWorld :=
  (w.serviceTicket, ⟨w.response, w.serviceTicket, w.posts + 1, w.transmitted⟩)

/-- The f-string `f'{otp:03d}'`: decimal digits, zero-padded on the left to a
minimum total width of 3 (a minus sign counts toward the width and precedes the
padding). -/
def formatOtp (n : Int) : String :=
  if n < 0 then
    let s := (-n).toNat.repr
    "-" ++ String.mk (List.replicate (2 - s.length) '0') ++ s
  else
    let s := n.toNat.repr
    String.mk (List.replicate (3 - s.length) '0') ++ s

/-- `int(s)` restricted to strings of decimal digits (the only use sites in the
claims): the numeric value of the digit string. -/
def parseDigits (s : String) : Nat :=
  s.data.foldl (fun a c => 10 * a + (c.toNat - 48)) 0

/-- `int(s)` on an arbitrary string: an optional sign followed by at least one
decimal digit parses to the value; anything else raises `ValueError`. -/
def pyInt (s : String) : Except ApErr Int :=
  match s.data with
  | '-' :: rest =>
      if rest ≠ [] ∧ rest.all Char.isDigit then
        .ok (-(rest.foldl (fun a c => 10 * a + (c.toNat - 48)) 0 : Nat))
      else .error .valueError
  | l =>
      if l ≠ [] ∧ l.all Char.isDigit then
        .ok (l.foldl (fun a c => 10 * a + (c.toNat - 48)) 0 : Nat)
      else .error .valueError

/-- `APSpace.sign_otp(otp: int)`: derives a service ticket for "attendix"
(one POST), sends the GraphQL mutation with `variables.otp = f'{otp:03d}'`
(second POST), then interprets the response:
status 200 with falsy/"null" `data` raises `OTPError(errors[0]['message'])`
(`IndexError` when `errors` is empty); `data` present with
`attendance == "Y"` returns the class code; `attendance != "Y"` falls off the
function and returns `None`; status 401 evaluates
`await otp_response.json()['errors'][0]['message']`, which subscripts the
un-awaited coroutine and raises `TypeError`; any other status returns `None`. -/
def sign_otp (otp : Int) (w : OtpWorld) : Except ApErr (Option String) × OtpWorld :=
  let a := get_service_auth w
  let w1 := a.2
  let sent := formatOtp otp
  let w2 : OtpWorld := ⟨w1.response, w1.serviceTicket, w1.posts + 1, w1.transmitted ++ [sent]⟩
  if w2.response.status = 200 then
    match w2.response.body.data with
    | none =>
        match w2.response.body.errors.head? with
        | some e => (.error (.otpError e.message), w2)
        | none => (.error .indexError, w2)
    | some d =>
        if d.attendance = "Y" then (.ok (some d.classcode), w2)
        else (.ok none, w2)
  else if w2.response.status = 401 then
    match coroSubscript (β := String) (Awaitable.coro w2.response.body) with
    | .error e => (.error e, w2)
    | .ok _ => (.ok none, w2)
  else (.ok none, w2)

/-- `APSpace.take_attendance(otp: str)`: if `len(otp) != 3`, raises
`OTPError("OTP Format Invalid!")` before any network call; otherwise calls
`sign_otp(int(otp))`. -/
def take_attendance (otp : String) (w : OtpWorld) : Except ApErr (Option String) × OtpWorld :=
  if otp.length ≠ 3 then (.error (.otpError "OTP Format Invalid!"), w)
  else
    match pyInt otp with
    | .error e => (.error e, w)
    | .ok n => sign_otp n w

/- ### Login (`APSpace.login`) -/

/-- Body of the CAS login response: on 201 an HTML form whose `action` attribute
carries the ticket URL; on failure a JSON body with an
`authentication_exceptions` array of arrays of strings. -/
structure LoginBody where
  formAction : String
  authentication_exceptions : List (List String)

/-- `APSpace.login`: on status 201 the master ticket is the form's `action`
attribute with the ticket-URL prefix stripped.  On any other status the code
evaluates `ticket_html.json()['authentication_exceptions'][1][0]` — but
`ticket_html.json()` is not awaited, so the subscript hits a coroutine object
and raises `TypeError` before `CredentialsInvalid` is ever constructed. -/
def login (resp : HttpResponse LoginBody) : Except ApErr String :=
  if resp.status = 201 then
    .ok (resp.body.formAction.replace "https://cas.apiit.edu.my/cas/v1/tickets/" "")
  else
    match coroSubscript (β := List (List String)) (Awaitable.coro resp.body) with
    | .error e => .error e
    | .ok exceptions =>
        match exceptions.get? 1 with
        | some row =>
            match row.get? 0 with
            | some msg => .error (.credentialsInvalid msg)
            | none => .error .indexError
        | none => .error .indexError

/- ### Intake lookup and semester resolver -/

/-- One row of the `student/courses` response. -/
structure IntakeRow where
  INTAKE_CODE : String
  COURSE_DESCRIPTION : String
  TYPE_OF_COURSE : String
deriving DecidableEq

/-- One row of the `student/sub_and_course_details` response (only the field the
resolver reads). -/
structure SubCourseRow where
  IMMIGRATION_GPA : ℚ
deriving DecidableEq

/-- Remote environment for the semester resolver: the
`sub_and_course_details?intake=…` response for each intake code, and the
`student/courses` response.  The courses request carries no intake parameter in
the code, so it is one fixed response per environment. -/
structure SemEnv where
  subCourse : String → HttpResponse (List SubCourseRow)
  courses : HttpResponse (List IntakeRow)

/-- `APSpace.get_intake_details("previous_intake")`: fetches `student/courses`;
on 200, returns `response[-1]['INTAKE_CODE']` when more than one intake row
exists and `None` otherwise; on 401 raises `HTTPUnauthorized`; any other status
falls through and returns `None`. -/
def previous_intake_lookup (env : SemEnv) : Except ApErr (Option String) :=
  if env.courses.status = 200 then
    if env.courses.body.length > 1 then
      match env.courses.body.getLast? with
      | some r => .ok (some r.INTAKE_CODE)
      | none => .error .indexError
    else .ok none
  else if env.courses.status = 401 then .error .httpUnauthorized
  else .ok none

/-- `APSpace.get_semester_details(intake_code)`, fuel-indexed because the Python
recursion is not structurally bounded (`none` = the recursion is still running
after `fuel` nested calls).  On a 200 response, `match len(body)`:
one row — look up the previous intake; if the lookup raises, that propagates; if
its value is truthy (a non-empty string) recurse on it, else return `(1, 0.00)`.
Two rows — the code evaluates `await response.json()[-2]['IMMIGRATION_GPA']`,
which subscripts the un-awaited coroutine returned by `response.json()` and so
raises `TypeError` (the intended value is the second-to-last row's GPA).
Any other row count matches no case, and the trailing
`return self.current_semester, cgpa` hits the never-assigned local `cgpa`,
raising `UnboundLocalError`.  Status 401 raises `HTTPUnauthorized`; any other
status returns `None`. -/
def get_semester_details (env : SemEnv) : Nat → String → Option (Except ApErr (Option (Nat × ℚ)))
  | 0, _ => none
  | fuel + 1, intake =>
    let resp := env.subCourse intake
    if resp.status = 200 then
      match resp.body.length with
      | 1 =>
          match previous_intake_lookup env with
          | .error e => some (.error e)
          | .ok none => some (.ok (some (1, 0)))
          | .ok (some p) =>
              if p = "" then some (.ok (some (1, 0)))
              else get_semester_details env fuel p
      | 2 =>
          match coroSubscript (β := SubCourseRow) (Awaitable.coro resp.body) with
          | .error e => some (.error e)
          | .ok r => some (.ok (some (2, r.IMMIGRATION_GPA)))
      | _ => some (.error (.unboundLocal "cgpa"))
    else if resp.status = 401 then some (.error .httpUnauthorized)
    else some (.ok none)

/- ### Attendance percentage (`get_attendance_percentage`) -/

/-- One row of the `student/attendance` response (the fields the aggregation
reads). -/
structure CourseRow where
  SEMESTER : Nat
  PERCENTAGE : ℚ
deriving DecidableEq

/-- World state for the attendance-percentage call: a stream of responses (the
attempt number indexes it), and counters for service-ticket POSTs, resource
GETs, and login (re-authentication) calls. -/
structure AttWorld where
  responses : Nat → HttpResponse (List CourseRow)
  posts : Nat
  gets : Nat
  logins : Nat

/-- Floor of a rational, written out computably (numerator floor-divided by the
positive denominator). -/
def ratFloor (q : ℚ) : ℤ :=
  Int.fdiv q.num q.den

/-- Python `round` at 2 decimal places, modelled on rationals: round-half-to-even
of 100·q, divided by 100.  Comparisons are spelled with the executable `Rat.blt`
(strictly-less-than on rationals) so the definition evaluates inside the kernel. -/
def round2 (q : ℚ) : ℚ :=
  let x := 100 * q
  let f : ℤ := ratFloor x
  let frac : ℚ := x - (f : ℚ)
  let r : ℤ :=
    if Rat.blt frac (1 / 2) then f
    else if Rat.blt (1 / 2) frac then f + 1
    else if f % 2 = 0 then f else f + 1
  (r : ℚ) / 100

/-- The body of the accumulation loop of `get_attendance_percentage`: add the
row's `PERCENTAGE` to the running total and bump the count when the row's
`SEMESTER` equals the current semester. -/
def attStep (current_semester : Option Nat) (tc : ℚ × Nat) (course : CourseRow) : ℚ × Nat :=
  if some course.SEMESTER = current_semester then (tc.1 + course.PERCENTAGE, tc.2 + 1)
  else tc

/-- `APSpace.get_attendance_percentage`: derives a service ticket (a POST), GETs
the attendance rows, and on 200 folds the loop from `(0, 0)` and returns
`round(total / count, 2)` — Python `/` raises `ZeroDivisionError` when the count
is 0, which is what the error branch of the embedded division records.  On 401
it raises `HTTPUnauthorized` — it performs no re-authentication and no retry and
touches no further response.  Any other status returns `None`. -/
def get_attendance_percentage (current_semester : Option Nat) (w : AttWorld) :
    Except ApErr (Option ℚ) × AttWorld :=
  let w1 : AttWorld := ⟨w.responses, w.posts + 1, w.gets, w.logins⟩
  let resp := w1.responses w1.gets
  let w2 : AttWorld := ⟨w1.responses, w1.posts, w1.gets + 1, w1.logins⟩
  if resp.status = 200 then
    let tc := resp.body.foldl (attStep current_semester) ((0 : ℚ), (0 : Nat))
    if tc.2 = 0 then (.error .zeroDivisionError, w2)
    else (.ok (some (round2 (tc.1 / (tc.2 : ℚ)))), w2)
  else if resp.status = 401 then (.error .httpUnauthorized, w2)
  else (.ok none, w2)

/-- The rows of the attendance response counted by the loop: exactly those whose
`SEMESTER` equals the current semester. -/
def matchingRows (current_semester : Option Nat) (rows : List CourseRow) : List CourseRow :=
  rows.filter fun r => some r.SEMESTER = current_semester

/-- Sum of the `PERCENTAGE` fields of the matching rows. -/
def matchingSum (current_semester : Option Nat) (rows : List CourseRow) : ℚ :=
  ((matchingRows current_semester rows).map CourseRow.PERCENTAGE).sum

/- ### Helper lemmas -/

/-- The accumulation loop computes the sum of the matching rows' percentages and
the number of matching rows, on top of whatever it started from. -/
theorem foldl_attStep (cs : Option Nat) (rows : List CourseRow) (t : ℚ) (c : Nat) :
    rows.foldl (attStep cs) (t, c) =
      (t + matchingSum cs rows, c + (matchingRows cs rows).length) := by
  induction rows generalizing t c with
  | nil => simp [matchingSum, matchingRows]
  | cons r rs ih =>
      by_cases h : some r.SEMESTER = cs
      · simp [attStep, matchingSum, matchingRows, h, ih, List.filter_cons]
        ring_nf
        simp [add_assoc, add_comm, add_left_comm]
      · simp [attStep, matchingSum, matchingRows, h, ih, List.filter_cons]

/-- The world after `sign_otp`: two POSTs were issued and the zero-padded OTP
string was appended to the transmission log; nothing else changed. -/
theorem sign_otp_world (otp : Int) (w : OtpWorld) :
    (sign_otp otp w).2 =
      ⟨w.response, w.serviceTicket, w.posts + 2, w.transmitted ++ [formatOtp otp]⟩ := by
  unfold sign_otp get_service_auth
  dsimp only
  split
  · split <;> split <;> rfl
  · split
    · split <;> rfl
    · rfl

/- ### Concrete fixtures -/

/-- The specification's example attendance rows: semester 1 at 80%, semester 2
at 90% and 70%. -/
def attRows : List CourseRow := [⟨1, 80⟩, ⟨2, 90⟩, ⟨2, 70⟩]

/-- Attendance world whose every response is a 200 with the example rows. -/
def wAtt200 : AttWorld := ⟨fun _ => ⟨200, attRows⟩, 0, 0, 0⟩

/-- Attendance world answering 401 to the first request and 200 with good data
to any retry. -/
def wAtt401then200 : AttWorld :=
  ⟨fun n => if n = 0 then ⟨401, []⟩ else ⟨200, attRows⟩, 0, 0, 0⟩

/-- Attendance world answering 401 to every request. -/
def wAtt401 : AttWorld := ⟨fun _ => ⟨401, []⟩, 0, 0, 0⟩

/-- Attendance world whose response is a 200 carrying no rows at all. -/
def wAttEmpty : AttWorld := ⟨fun _ => ⟨200, []⟩, 0, 0, 0⟩

/- ### C4 -/

/-- Claim C4: on a 200 response with at least one row of the current semester,
`get_attendance_percentage` returns the arithmetic mean, rounded to 2 decimal
places, of the `PERCENTAGE` fields of exactly those rows whose `SEMESTER`
equals the current semester; rows of other semesters are excluded. -/
theorem att_percentage_mean (cs : Option Nat) (w : AttWorld)
    (h200 : (w.responses w.gets).status = 200)
    (hne : matchingRows cs (w.responses w.gets).body ≠ []) :
    (get_attendance_percentage cs w).1 =
      .ok (some (round2 (matchingSum cs (w.responses w.gets).body /
        ((matchingRows cs (w.responses w.gets).body).length : ℚ)))) := by
  have hlen : (matchingRows cs (w.responses w.gets).body).length ≠ 0 := by
    simpa [List.length_eq_zero] using hne
  have hfold := foldl_attStep cs (w.responses w.gets).body 0 0
  simp only [zero_add] at hfold
  simp at hfold
  simp [get_attendance_percentage, h200, hfold, hlen]

/-- Witness for C4: the specification's example — rows
`[{SEMESTER:1,PCT:80},{SEMESTER:2,PCT:90},{SEMESTER:2,PCT:70}]` with current
semester 2 yield `round((90+70)/2, 2) = 80`. -/
theorem att_percentage_mean_witness :
    (wAtt200.responses wAtt200.gets).status = 200 ∧
    matchingRows (some 2) attRows ≠ [] ∧
    (get_attendance_percentage (some 2) wAtt200).1 =
      .ok (some (round2 (matchingSum (some 2) attRows /
        ((matchingRows (some 2) attRows).length : ℚ)))) ∧
    round2 (matchingSum (some 2) attRows / ((matchingRows (some 2) attRows).length : ℚ)) = 80 :=
  ⟨rfl, by with_unfolding_all decide,
    att_percentage_mean (some 2) wAtt200 rfl (by with_unfolding_all decide),
    by with_unfolding_all rfl⟩

/- ### C10 -/

/-- Claim C10: when a 200 attendance response contains zero rows whose
`SEMESTER` equals the current semester (including an empty response array), the
division `total_attendance / count` has divisor 0 and the call raises
`ZeroDivisionError`; the division is unguarded. -/
theorem att_percentage_zero_division (cs : Option Nat) (w : AttWorld)
    (h200 : (w.responses w.gets).status = 200)
    (hnone : matchingRows cs (w.responses w.gets).body = []) :
    (get_attendance_percentage cs w).1 = .error .zeroDivisionError := by
  have hfold := foldl_attStep cs (w.responses w.gets).body 0 0
  simp only [zero_add] at hfold
  simp at hfold
  simp [get_attendance_percentage, h200, hfold, hnone]

/-- Witness for C10: an empty 200 response makes the call raise
`ZeroDivisionError`. -/
theorem att_percentage_zero_division_witness :
    (wAttEmpty.responses wAttEmpty.gets).status = 200 ∧
    matchingRows (some 2) (wAttEmpty.responses wAttEmpty.gets).body = [] ∧
    (get_attendance_percentage (some 2) wAttEmpty).1 = .error .zeroDivisionError :=
  ⟨rfl, rfl, att_percentage_zero_division (some 2) wAttEmpty rfl rfl⟩

/- ### C1 -/

/-- Claim C1 counterexample: with a 401 first response and a 200 (with good
data) available for a retry, the attendance-percentage operation does not
succeed with one re-authentication — it raises `HTTPUnauthorized` on the first
401, performs zero re-authentications, and consumes only the first response. -/
theorem att_401_then_200_no_retry :
    (get_attendance_percentage (some 2) wAtt401then200).1 = .error .httpUnauthorized ∧
    (get_attendance_percentage (some 2) wAtt401then200).2.logins = 0 ∧
    (get_attendance_percentage (some 2) wAtt401then200).2.gets = 1 ∧
    ¬ ((get_attendance_percentage (some 2) wAtt401then200).1 = .ok (some 80) ∧
        (get_attendance_percentage (some 2) wAtt401then200).2.logins = 1) :=
  ⟨by with_unfolding_all rfl, rfl, rfl,
    fun h => absurd h.2 (by with_unfolding_all decide)⟩

/-- Claim C1 as amended: whenever the attendance-percentage request is answered
with a 401, the operation fails immediately with `HTTPUnauthorized`: the login
counter is untouched (no re-authentication) and exactly one request was
consumed (no retry). -/
theorem att_401_fails_without_reauth (cs : Option Nat) (w : AttWorld)
    (h401 : (w.responses w.gets).status = 401) :
    (get_attendance_percentage cs w).1 = .error .httpUnauthorized ∧
    (get_attendance_percentage cs w).2.logins = w.logins ∧
    (get_attendance_percentage cs w).2.gets = w.gets + 1 := by
  refine ⟨?_, ?_, ?_⟩ <;> simp [get_attendance_percentage, h401]

/-- Witness for the amended C1: a world answering 401 to every request. -/
theorem att_401_fails_without_reauth_witness :
    (wAtt401.responses wAtt401.gets).status = 401 ∧
    (get_attendance_percentage (some 2) wAtt401).1 = .error .httpUnauthorized ∧
    (get_attendance_percentage (some 2) wAtt401).2.logins = wAtt401.logins ∧
    (get_attendance_percentage (some 2) wAtt401).2.gets = wAtt401.gets + 1 :=
  ⟨rfl, att_401_fails_without_reauth (some 2) wAtt401 rfl⟩

/- ### C3 -/

/-- A base OTP world: a 200 response whose `updateAttendance` has
`attendance = "Y"`, no reported errors, and fresh counters. -/
def wOtpBase : OtpWorld :=
  ⟨⟨200, ⟨some ⟨"Y", "UCDF2105ICT"⟩, []⟩⟩, "ST-12345", 0, []⟩

/-- Claim C3: for every OTP string whose length is not 3, `take_attendance`
raises the client-side format error `OTPError("OTP Format Invalid!")` and makes
zero network calls — the world, including its POST counter and transmission
log, is returned unchanged. -/
theorem take_attendance_rejects_bad_length (otp : String) (w : OtpWorld)
    (h : otp.length ≠ 3) :
    take_attendance otp w = (.error (.otpError "OTP Format Invalid!"), w) ∧
    (take_attendance otp w).2.posts = w.posts ∧
    (take_attendance otp w).2.transmitted = w.transmitted := by
  refine ⟨?_, ?_, ?_⟩ <;> simp [take_attendance, h]

/-- Witness for C3: the two-character string "42" is rejected without any
network activity. -/
theorem take_attendance_rejects_bad_length_witness :
    ("42" : String).length ≠ 3 ∧
    take_attendance "42" wOtpBase = (.error (.otpError "OTP Format Invalid!"), wOtpBase) ∧
    (take_attendance "42" wOtpBase).2.posts = wOtpBase.posts ∧
    (take_attendance "42" wOtpBase).2.transmitted = wOtpBase.transmitted :=
  ⟨by decide, take_attendance_rejects_bad_length "42" wOtpBase (by decide)⟩

/- ### C9 -/

/-- The 3-character string made of the decimal digits `a`, `b`, `c`. -/
def threeDigitStr (a b c : Nat) : String :=
  String.mk [Char.ofNat (48 + a), Char.ofNat (48 + b), Char.ofNat (48 + c)]

/-- Claim C9: the OTP is transmitted as the zero-padded 3-character string
`f'{otp:03d}'` — for OTP 42 the payload carries "042" — and for every 3-digit
input string the round trip `format(parse(s)) = s` holds. -/
theorem otp_zero_pad_round_trip :
    (∀ w : OtpWorld, (sign_otp 42 w).2.transmitted = w.transmitted ++ ["042"]) ∧
    ∀ a < 10, ∀ b < 10, ∀ c < 10,
      formatOtp (parseDigits (threeDigitStr a b c) : Int) = threeDigitStr a b c := by
  constructor
  · intro w
    rw [sign_otp_world]
    with_unfolding_all rfl
  · decide

/-- Witness for C9: transmitting OTP 42 logs "042", and "042" itself
round-trips through parse-then-format. -/
theorem otp_zero_pad_round_trip_witness :
    (sign_otp 42 wOtpBase).2.transmitted = wOtpBase.transmitted ++ ["042"] ∧
    formatOtp (parseDigits (threeDigitStr 0 4 2) : Int) = threeDigitStr 0 4 2 :=
  ⟨otp_zero_pad_round_trip.1 wOtpBase,
    otp_zero_pad_round_trip.2 0 (by decide) 4 (by decide) 2 (by decide)⟩

/- ### C8 -/

/-- OTP world whose 200 response has `data.updateAttendance.attendance = "N"`
(submission not registered) and a server-reported error message available. -/
def wOtpRejected : OtpWorld :=
  ⟨⟨200, ⟨some ⟨"N", "UCDF2105ICT"⟩, [⟨"Invalid OTP"⟩]⟩⟩, "ST-12345", 0, []⟩

/-- Claim C8 counterexample: a 200 response whose `data` is present but whose
`attendance` field is "N" makes `sign_otp` return Python `None` silently — not
a raised submission-failure error. -/
theorem sign_otp_silent_none_on_rejection :
    (sign_otp 111 wOtpRejected).1 = .ok none := by
  with_unfolding_all rfl

/-- Claim C8 as amended: on a 200 response, an empty/absent `data` section
raises `OTPError` with the first reported error's message (and `IndexError`
when no error is reported), but a present `data` whose `attendance` is not "Y"
is NOT surfaced as an error — `sign_otp` silently returns `None`. -/
theorem sign_otp_failure_paths (otp : Int) (w : OtpWorld)
    (h200 : w.response.status = 200) :
    (w.response.body.data = none →
      ∀ e, w.response.body.errors.head? = some e →
        (sign_otp otp w).1 = .error (.otpError e.message)) ∧
    (∀ d, w.response.body.data = some d → d.attendance ≠ "Y" →
      (sign_otp otp w).1 = .ok none) := by
  constructor
  · intro hdata e herr
    simp [sign_otp, get_service_auth, h200, hdata, herr]
  · intro d hdata hn
    simp [sign_otp, get_service_auth, h200, hdata, hn]

/-- OTP world whose 200 response has a null `data` section and one reported
error. -/
def wOtpNullData : OtpWorld :=
  ⟨⟨200, ⟨none, [⟨"Invalid OTP"⟩]⟩⟩, "ST-12345", 0, []⟩

/-- Witness for the amended C8: a response with null `data` and error message
"Invalid OTP" raises `OTPError("Invalid OTP")`; the `wOtpRejected` response
with `attendance = "N"` yields a silent `None`. -/
theorem sign_otp_failure_paths_witness :
    (sign_otp 111 wOtpNullData).1 = .error (.otpError "Invalid OTP") ∧
    (sign_otp 111 wOtpRejected).1 = .ok none :=
  ⟨(sign_otp_failure_paths 111 wOtpNullData rfl).1 rfl ⟨"Invalid OTP"⟩ rfl,
    (sign_otp_failure_paths 111 wOtpRejected rfl).2 ⟨"N", "UCDF2105ICT"⟩ rfl (by decide)⟩

/- ### C6 -/

/-- Claim C6 (intended behavior) fails: on every non-201 login response the
code raises `TypeError`, because `ticket_html.json()` is missing an `await` and
the subscript `['authentication_exceptions']` is applied to the coroutine
object; `CredentialsInvalid` is never constructed. -/
theorem login_non201_raises_typeError (resp : HttpResponse LoginBody)
    (h : resp.status ≠ 201) :
    login resp = .error .typeError := by
  simp [login, h, coroSubscript]

/-- Witness for C6: a 401 login response carrying
`authentication_exceptions = [[], ["Bad credentials"]]` produces `TypeError`,
not `CredentialsInvalid "Bad credentials"`. -/
theorem login_non201_raises_typeError_witness :
    (⟨401, ⟨"", [[], ["Bad credentials"]]⟩⟩ : HttpResponse LoginBody).status ≠ 201 ∧
    login ⟨401, ⟨"", [[], ["Bad credentials"]]⟩⟩ = .error .typeError :=
  ⟨by decide, login_non201_raises_typeError ⟨401, ⟨"", [[], ["Bad credentials"]]⟩⟩ (by decide)⟩

/- ### C2 -/

/-- A single sub-and-course-details row. -/
def rowsOne : List SubCourseRow := [⟨3⟩]

/-- Two sub-and-course-details rows. -/
def rowsTwo : List SubCourseRow := [⟨3⟩, ⟨2⟩]

/-- Environment where the current intake "A2024" has one details row, the older
intake "A2023" has two, and the courses list names both (most recent first). -/
def envRecurse : SemEnv :=
  ⟨fun i => if i = "A2024" then ⟨200, rowsOne⟩ else ⟨200, rowsTwo⟩,
    ⟨200, [⟨"A2024", "CS", "FT"⟩, ⟨"A2023", "CS", "FT"⟩]⟩⟩

/-- Environment of a brand-new student: one details row, a single intake. -/
def envFloor : SemEnv :=
  ⟨fun _ => ⟨200, rowsOne⟩, ⟨200, [⟨"A2024", "CS", "FT"⟩]⟩⟩

/-- Environment where every intake has exactly two details rows. -/
def envTwo : SemEnv :=
  ⟨fun _ => ⟨200, rowsTwo⟩, ⟨200, [⟨"A2024", "CS", "FT"⟩]⟩⟩

/-- Claim C2: on a 200 response, with exactly one details row the resolver
recurses on a truthy previous intake and returns that recursive result, and
returns `(1, 0.00)` when no previous intake exists; but with exactly two rows
it does NOT return `(2, secondToLast.IMMIGRATION_GPA)` — the expression
`await response.json()[-2]['IMMIGRATION_GPA']` subscripts the un-awaited
coroutine, so the call raises `TypeError`. -/
theorem semester_details_cases (env : SemEnv) (fuel : Nat) (I : String) :
    ((env.subCourse I).status = 200 → (env.subCourse I).body.length = 1 →
      (∀ p, previous_intake_lookup env = .ok (some p) → p ≠ "" →
        get_semester_details env (fuel + 1) I = get_semester_details env fuel p) ∧
      (previous_intake_lookup env = .ok none →
        get_semester_details env (fuel + 1) I = some (.ok (some (1, 0))))) ∧
    ((env.subCourse I).status = 200 → (env.subCourse I).body.length = 2 →
      get_semester_details env (fuel + 1) I = some (.error .typeError)) := by
  constructor
  · intro h200 hlen
    constructor
    · intro p hprev hp
      simp [get_semester_details, h200, hlen, hprev, hp]
    · intro hprev
      simp [get_semester_details, h200, hlen, hprev]
  · intro h200 hlen
    simp [get_semester_details, h200, hlen, coroSubscript]

/-- Witness for C2: in `envRecurse` the one-row intake "A2024" resolves to the
recursive call on the previous intake "A2023"; in `envFloor` it returns
`(1, 0)`; in `envTwo` the two-row response produces `TypeError`. -/
theorem semester_details_cases_witness :
    get_semester_details envRecurse 2 "A2024" = get_semester_details envRecurse 1 "A2023" ∧
    get_semester_details envFloor 1 "A2024" = some (.ok (some (1, 0))) ∧
    get_semester_details envTwo 1 "A2024" = some (.error .typeError) :=
  ⟨((semester_details_cases envRecurse 1 "A2024").1 rfl rfl).1 "A2023" rfl (by decide),
    ((semester_details_cases envFloor 0 "A2024").1 rfl rfl).2 rfl,
    (semester_details_cases envTwo 0 "A2024").2 rfl rfl⟩

/- ### C5 -/

/-- Environment exhibiting the unbounded recursion: the student has two intakes
"A2023" (current) and "A2022" (oldest), and every
`sub_and_course_details` response has exactly one row.  `previous_intake`
always re-reads the same unparameterized courses list and returns "A2022", so
resolving "A2022" recurses on "A2022" itself, forever. -/
def envLoop : SemEnv :=
  ⟨fun _ => ⟨200, rowsOne⟩, ⟨200, [⟨"A2023", "CS", "FT"⟩, ⟨"A2022", "CS", "FT"⟩]⟩⟩

/-- Claim C5 fails on the code: in `envLoop` the resolver never terminates —
for every fuel bound and every starting intake the fuel runs out, because the
previous-intake lookup keeps returning the same code "A2022". -/
theorem semester_resolver_diverges :
    ∀ fuel : Nat, ∀ I : String, get_semester_details envLoop fuel I = none := by
  intro fuel
  induction fuel with
  | zero => intro I; rfl
  | succ n ih =>
      intro I
      have hstep : get_semester_details envLoop (n + 1) I =
          get_semester_details envLoop n "A2022" := by
        simp [get_semester_details, envLoop, previous_intake_lookup, rowsOne]
      rw [hstep]
      exact ih "A2022"

/- ### C7 -/

/-- Environment whose sub-and-course-details response has zero rows. -/
def envNoRows : SemEnv :=
  ⟨fun _ => ⟨200, []⟩, ⟨200, []⟩⟩

/-- Claim C7 counterexample: a 200 response with zero rows does not raise a
`DataShapeError` — the `match` falls through and the trailing
`return self.current_semester, cgpa` raises `UnboundLocalError` on the
never-assigned local `cgpa`. -/
theorem semester_details_no_dataShapeError :
    get_semester_details envNoRows 1 "A2024" = some (.error (.unboundLocal "cgpa")) ∧
    get_semester_details envNoRows 1 "A2024" ≠ some (.error .dataShapeError) := by
  constructor
  · with_unfolding_all rfl
  · intro h
    have h2 : (some (.error (.unboundLocal "cgpa")) : Option (Except ApErr (Option (Nat × ℚ)))) =
        some (.error .dataShapeError) := by
      rw [← h]
      with_unfolding_all rfl
    simp at h2

/-- Claim C7 as amended: when the row count is neither 1 nor 2 the resolver
raises `UnboundLocalError` for `cgpa` (an implicit crash), not an explicit
`DataShapeError`. -/
theorem semester_details_fallthrough (env : SemEnv) (fuel : Nat) (I : String)
    (h200 : (env.subCourse I).status = 200)
    (h1 : (env.subCourse I).body.length ≠ 1)
    (h2 : (env.subCourse I).body.length ≠ 2) :
    get_semester_details env (fuel + 1) I = some (.error (.unboundLocal "cgpa")) := by
  rcases hn : (env.subCourse I).body.length with _ | _ | _ | k
  · simp [get_semester_details, h200, hn]
  · exact absurd hn h1
  · exact absurd hn h2
  · simp [get_semester_details, h200, hn]

/-- Witness for the amended C7: the zero-row environment yields
`UnboundLocalError("cgpa")`. -/
theorem semester_details_fallthrough_witness :
    (envNoRows.subCourse "A2024").status = 200 ∧
    (envNoRows.subCourse "A2024").body.length ≠ 1 ∧
    (envNoRows.subCourse "A2024").body.length ≠ 2 ∧
    get_semester_details envNoRows 1 "A2024" = some (.error (.unboundLocal "cgpa")) :=
  ⟨rfl, by decide, by decide,
    semester_details_fallthrough envNoRows 0 "A2024" rfl (by decide) (by decide)⟩
